import Mathlib

/-!
Verification model of the `pep` inhibitor core (`src/pep/core.py`).

The module-level function `_parse_xset_dpms` and the class `PepInhibitor`
(fields `_process`, `_screensaver_cookie`, `_dpms_fallback_active`,
`_original_dpms`; methods `enable`, `disable`, `is_active`, `cleanup`,
`_enable_screen_inhibit`, `_disable_screen_inhibit`) are embedded as pure
Lean functions.  External effects (process spawn, D-Bus calls, `xset`
invocations, process termination) are modelled by environment records that
fix the outcome of each external call, and each operation additionally
returns the list of external actions it attempted, so that claims about
side effects can be stated.
-/

/-! ### Regex model for `_parse_xset_dpms`

The source uses `re.search` with the patterns
`Standby:\s+(\d+)\s+Suspend:\s+(\d+)\s+Off:\s+(\d+)` and
`timeout:\s+(\d+)\s+cycle:`.  Since the character classes `\s` and `\d`
are disjoint from each other and from the literal characters that follow
them, greedy maximal-munch matching without backtracking is equivalent to
the regex semantics, and `re.search` is "try every start position, leftmost
first". -/

/-- Python `\s` on ASCII text: space, tab, newline, carriage return,
form feed, vertical tab. -/
def isWsChar (c : Char) : Bool :=
  c = ' ' || c = '\t' || c = '\n' || c = '\r' || c = '\x0b' || c = '\x0c'

/-- Decimal digit list to the integer Python's `int()` produces. -/
def digitsToNat (ds : List Char) : Nat :=
  ds.foldl (fun n c => 10 * n + (c.toNat - '0'.toNat)) 0

/-- Match a literal string at the head of the input; return the rest. -/
def matchLit : List Char → List Char → Option (List Char)
  | [], rest => some rest
  | _ :: _, [] => none
  | c :: cs, d :: ds => if c = d then matchLit cs ds else none

/-- Match one-or-more characters satisfying `p` (greedy); return the
matched run and the rest. -/
def takeWhile1 (p : Char → Bool) (cs : List Char) : Option (List Char × List Char) :=
  let t := cs.takeWhile p
  if t.isEmpty then none else some (t, cs.dropWhile p)

/-- Try the anchored matcher `m` at every start position, leftmost first
(= Python `re.search`). -/
def reSearch {α : Type} (m : List Char → Option α) : List Char → Option α
  | [] => m []
  | c :: cs =>
    match m (c :: cs) with
    | some x => some x
    | none => reSearch m cs

/-- Anchored match of `Standby:\s+(\d+)\s+Suspend:\s+(\d+)\s+Off:\s+(\d+)`. -/
def matchDpmsAt (cs : List Char) : Option (Nat × Nat × Nat) := do
  let r ← matchLit "Standby:".data cs
  let (_, r) ← takeWhile1 isWsChar r
  let (d1, r) ← takeWhile1 Char.isDigit r
  let (_, r) ← takeWhile1 isWsChar r
  let r ← matchLit "Suspend:".data r
  let (_, r) ← takeWhile1 isWsChar r
  let (d2, r) ← takeWhile1 Char.isDigit r
  let (_, r) ← takeWhile1 isWsChar r
  let r ← matchLit "Off:".data r
  let (_, r) ← takeWhile1 isWsChar r
  let (d3, _) ← takeWhile1 Char.isDigit r
  return (digitsToNat d1, digitsToNat d2, digitsToNat d3)

/-- Anchored match of `timeout:\s+(\d+)\s+cycle:`. -/
def matchTimeoutAt (cs : List Char) : Option Nat := do
  let r ← matchLit "timeout:".data cs
  let (_, r) ← takeWhile1 isWsChar r
  let (d, r) ← takeWhile1 Char.isDigit r
  let (_, r) ← takeWhile1 isWsChar r
  let _ ← matchLit "cycle:".data r
  return digitsToNat d

/-- `re.search` for the Standby/Suspend/Off pattern (line 20 of core.py). -/
def dpmsSearch (output : String) : Option (Nat × Nat × Nat) :=
  reSearch matchDpmsAt output.data

/-- `re.search` for the `timeout:\s+(\d+)\s+cycle:` pattern (line 29). -/
def ssSearch (output : String) : Option Nat :=
  reSearch matchTimeoutAt output.data

/-- `_parse_xset_dpms` (core.py lines 11-36): returns
`(standby, suspend, off, screensaver_timeout)` or `none` when neither
pattern matches; fields of a non-matching pattern default to 0. -/
def parse_xset_dpms (output : String) : Option (Nat × Nat × Nat × Nat) :=
  let dpms_match := dpmsSearch output
  let ss_match := ssSearch output
  let standby := match dpms_match with | some (a, _, _) => a | none => 0
  let suspend := match dpms_match with | some (_, b, _) => b | none => 0
  let off := match dpms_match with | some (_, _, c) => c | none => 0
  let screensaver_timeout := match ss_match with | some t => t | none => 0
  if dpms_match.isNone && ss_match.isNone then none
  else some (standby, suspend, off, screensaver_timeout)

/-! ### State, environments, and observable actions -/

/-- The mutable fields of `PepInhibitor` (`__init__`, core.py lines 42-47).
`process` stands for `_process` (the pid of the held `Popen` handle),
the other fields keep their Python names without the leading underscore. -/
structure PepState where
  process : Option Nat
  screensaver_cookie : Option Nat
  dpms_fallback_active : Bool
  original_dpms : Option (Nat × Nat × Nat × Nat)
  deriving DecidableEq, Repr

/-- `PepInhibitor.__init__`: all fields empty / inactive. -/
def initState : PepState :=
  { process := none, screensaver_cookie := none,
    dpms_fallback_active := false, original_dpms := none }

/-- External actions an operation attempts, in order.  Each constructor is
one concrete external call of core.py. -/
inductive Event where
  | spawn_systemd_inhibit
  | dbus_inhibit
  | dbus_uninhibit (cookie : Nat)
  | xset_q
  | xset_s_off_dpms
  | xset_dpms (standby suspend off : Nat)
  | xset_s (timeout : Nat)
  | xset_plus_dpms_s_on
  | terminate_proc
  | kill_proc
  deriving DecidableEq, Repr

/-- Outcome of `subprocess.Popen(["systemd-inhibit", ...])`
(core.py lines 56-75). -/
inductive SpawnOutcome where
  | ok (pid : Nat)
  | fileNotFound
  | otherError
  deriving DecidableEq, Repr

/-- Result of a completed `subprocess.run` (only the fields core.py reads). -/
structure RunResult where
  returncode : Int
  stdout : String
  deriving DecidableEq, Repr

/-- Outcomes of the external calls made by `_enable_screen_inhibit`:
`dbus_inhibit = some c` means the D-Bus `Inhibit` call returned cookie `c`,
`none` means it raised; `xset_query = none` means `xset q` raised
(missing tool or timeout); `xset_off_ok` is whether `xset s off -dpms`
completed with exit status 0. -/
structure EngageEnv where
  dbus_inhibit : Option Nat
  xset_query : Option RunResult
  xset_off_ok : Bool
  deriving DecidableEq, Repr

/-- Outcomes of the external calls made by `_disable_screen_inhibit`.
None of them influence the resulting state (failures are logged and
absorbed), but `restore_dpms_ok = false` (the `xset dpms a b c` call
raising) skips the subsequent `xset s t` call. -/
structure DisengageEnv where
  uninhibit_ok : Bool
  restore_dpms_ok : Bool
  restore_ss_ok : Bool
  enable_defaults_ok : Bool
  deriving DecidableEq, Repr

/-- Outcome of the `terminate`/`wait` sequence in `disable`
(core.py lines 195-209): graceful exit within 2s, forced kill after
`TimeoutExpired`, or an exception escaping the whole `try` block. -/
inductive TermOutcome where
  | graceful
  | forced
  | raised
  deriving DecidableEq, Repr

/-! ### Operations -/

/-- `PepInhibitor._enable_screen_inhibit` (core.py lines 80-130): try the
D-Bus ScreenSaver `Inhibit` call; on success store the cookie and return.
Otherwise fall back to `xset`: query current settings with `xset q`
(parsing its stdout into `original_dpms` when it exits 0), then run
`xset s off -dpms`; only if that succeeds set `dpms_fallback_active`. -/
def enable_screen_inhibit (env : EngageEnv) (s : PepState) : PepState × List Event :=
  match env.dbus_inhibit with
  | some cookie => ({ s with screensaver_cookie := some cookie }, [Event.dbus_inhibit])
  | none =>
    match env.xset_query with
    | none => (s, [Event.dbus_inhibit, Event.xset_q])
    | some r =>
      let s1 := if r.returncode = 0 then { s with original_dpms := parse_xset_dpms r.stdout } else s
      if env.xset_off_ok then
        ({ s1 with dpms_fallback_active := true },
         [Event.dbus_inhibit, Event.xset_q, Event.xset_s_off_dpms])
      else
        (s1, [Event.dbus_inhibit, Event.xset_q, Event.xset_s_off_dpms])

/-- `PepInhibitor._disable_screen_inhibit` (core.py lines 132-185): release
the D-Bus cookie when present (clearing it regardless of call success);
then, when the fallback is active, restore the captured baseline (or
re-enable defaults when no baseline was captured) and clear the fallback
flag and baseline regardless of command success.  When the `xset dpms`
restore raises, the `xset s` call is skipped. -/
def disable_screen_inhibit (env : DisengageEnv) (s : PepState) : PepState × List Event :=
  let r1 : PepState × List Event :=
    match s.screensaver_cookie with
    | some c => ({ s with screensaver_cookie := none }, [Event.dbus_uninhibit c])
    | none => (s, [])
  if r1.1.dpms_fallback_active then
    match r1.1.original_dpms with
    | some (standby, suspend, off, ss_timeout) =>
      let evs2 :=
        if env.restore_dpms_ok then
          [Event.xset_dpms standby suspend off, Event.xset_s ss_timeout]
        else
          [Event.xset_dpms standby suspend off]
      ({ r1.1 with dpms_fallback_active := false, original_dpms := none }, r1.2 ++ evs2)
    | none =>
      ({ r1.1 with dpms_fallback_active := false, original_dpms := none },
       r1.2 ++ [Event.xset_plus_dpms_s_on])
  else r1

/-- `PepInhibitor.enable` (core.py lines 49-78): no-op returning `false`
when a handle is already stored; otherwise spawn `systemd-inhibit`
(returning `false` on `FileNotFoundError` or any other spawn failure),
then best-effort engage the screen inhibit and return `true`. -/
def enable (sp : SpawnOutcome) (env : EngageEnv) (s : PepState) :
    PepState × Bool × List Event :=
  match s.process with
  | some _ => (s, false, [])
  | none =>
    match sp with
    | SpawnOutcome.ok pid =>
      let r := enable_screen_inhibit env { s with process := some pid }
      (r.1, true, Event.spawn_systemd_inhibit :: r.2)
    | SpawnOutcome.fileNotFound => (s, false, [Event.spawn_systemd_inhibit])
    | SpawnOutcome.otherError => (s, false, [Event.spawn_systemd_inhibit])

/-- `PepInhibitor.disable` (core.py lines 187-209): returns `false` when no
handle is stored; otherwise disengages the screen inhibit first, then
terminates the process (escalating to `kill` on timeout).  The handle is
cleared and `true` returned unless the terminate/wait sequence raises. -/
def disable (env : DisengageEnv) (t : TermOutcome) (s : PepState) :
    PepState × Bool × List Event :=
  match s.process with
  | none => (s, false, [])
  | some _ =>
    let r := disable_screen_inhibit env s
    match t with
    | TermOutcome.graceful => ({ r.1 with process := none }, true, r.2 ++ [Event.terminate_proc])
    | TermOutcome.forced =>
      ({ r.1 with process := none }, true, r.2 ++ [Event.terminate_proc, Event.kill_proc])
    | TermOutcome.raised => (r.1, false, r.2 ++ [Event.terminate_proc])

/-- `PepInhibitor.is_active` (core.py lines 211-216): a handle is stored and
`poll()` reports the process still running (`alive` is the poll answer). -/
def is_active (alive : Bool) (s : PepState) : Bool :=
  s.process.isSome && alive

/-- `PepInhibitor.cleanup` (core.py lines 218-224): full `disable` when the
liveness check succeeds, otherwise just release the screen inhibit. -/
def cleanup (alive : Bool) (denv : DisengageEnv) (t : TermOutcome) (s : PepState) :
    PepState × List Event :=
  if is_active alive s then ((disable denv t s).1, (disable denv t s).2.2)
  else disable_screen_inhibit denv s

/-! ### Abstract guard state (spec §3) -/

/-- The screen guard counts as engaged when a cookie is held or the xset
fallback flag is set (spec's `DBusEngaged` / `FallbackEngaged` variants). -/
def screenGuardEngaged (s : PepState) : Bool :=
  s.screensaver_cookie.isSome || s.dpms_fallback_active

/-- The spec's claimed state-space invariant (spec §3 `ScreenGuardState`),
written from the spec's words for claim C2: the concrete fields form
exactly one of `Inactive`, `DBusEngaged{cookie}` (no baseline),
`FallbackEngaged{baseline?}`; in particular the baseline is present only
while the fallback flag is set. -/
def specScreenGuardInvariant (s : PepState) : Bool :=
  match s.screensaver_cookie, s.dpms_fallback_active, s.original_dpms with
  | some _, false, none => true
  | none, true, _ => true
  | none, false, none => true
  | _, _, _ => false

/-- One coordinator operation, with an arbitrary environment. -/
inductive Step : PepState → PepState → Prop where
  | stepEnable (sp : SpawnOutcome) (env : EngageEnv) (s : PepState) :
      Step s (enable sp env s).1
  | stepDisable (env : DisengageEnv) (t : TermOutcome) (s : PepState) :
      Step s (disable env t s).1
  | stepCleanup (alive : Bool) (denv : DisengageEnv) (t : TermOutcome) (s : PepState) :
      Step s (cleanup alive denv t s).1

/-- States reachable from the initial state through `enable` / `disable` /
`cleanup` calls with arbitrary external outcomes. -/
inductive Reachable : PepState → Prop where
  | init : Reachable initState
  | step {s s1 : PepState} : Reachable s → Step s s1 → Reachable s1

/-! ### Helper lemmas -/

theorem dsi_fst (env : DisengageEnv) (s : PepState) :
    (disable_screen_inhibit env s).1 =
      { s with screensaver_cookie := none, dpms_fallback_active := false,
               original_dpms := if s.dpms_fallback_active then none else s.original_dpms } := by
  obtain ⟨p, ck, fb, od⟩ := s
  rcases ck with _ | c <;> cases fb <;> rcases od with _ | ⟨a, b, c0, t⟩ <;>
    simp [disable_screen_inhibit]

theorem dsi_events_uninhibit (env : DisengageEnv) (s : PepState) (c : Nat)
    (h : s.screensaver_cookie = some c) :
    Event.dbus_uninhibit c ∈ (disable_screen_inhibit env s).2 := by
  obtain ⟨p, ck, fb, od⟩ := s
  simp only at h
  subst h
  cases fb <;> rcases od with _ | ⟨a, b, c0, t⟩ <;>
    cases hr : env.restore_dpms_ok <;> simp [disable_screen_inhibit, hr]

theorem dsi_events_restore (env : DisengageEnv) (s : PepState) (a b c t : Nat)
    (hf : s.dpms_fallback_active = true) (ho : s.original_dpms = some (a, b, c, t)) :
    Event.xset_dpms a b c ∈ (disable_screen_inhibit env s).2 := by
  obtain ⟨p, ck, fb, od⟩ := s
  simp only at hf ho
  subst hf; subst ho
  rcases ck with _ | c1 <;> cases hr : env.restore_dpms_ok <;>
    simp [disable_screen_inhibit, hr]

theorem esi_dbus_some (env : EngageEnv) (s : PepState) (c : Nat)
    (h : env.dbus_inhibit = some c) :
    enable_screen_inhibit env s =
      ({ s with screensaver_cookie := some c }, [Event.dbus_inhibit]) := by
  simp [enable_screen_inhibit, h]

theorem esi_fst_process (env : EngageEnv) (s : PepState) :
    (enable_screen_inhibit env s).1.process = s.process := by
  rcases env with ⟨d, q, ok⟩
  rcases d with _ | c
  · rcases q with _ | r
    · simp [enable_screen_inhibit]
    · cases ok <;> simp [enable_screen_inhibit] <;> split <;> simp
  · simp [enable_screen_inhibit]

theorem esi_fst_cookie_dbus_none (env : EngageEnv) (s : PepState)
    (h : env.dbus_inhibit = none) :
    (enable_screen_inhibit env s).1.screensaver_cookie = s.screensaver_cookie := by
  rcases env with ⟨d, q, ok⟩
  simp only at h
  subst h
  rcases q with _ | r
  · simp [enable_screen_inhibit]
  · cases ok <;> simp [enable_screen_inhibit] <;> split <;> simp

theorem disable_no_handle (env : DisengageEnv) (t : TermOutcome) (s : PepState)
    (h : s.process = none) : disable env t s = (s, false, []) := by
  simp [disable, h]

theorem disable_fst_guard (env : DisengageEnv) (t : TermOutcome) (s : PepState) (p : Nat)
    (h : s.process = some p) :
    (disable env t s).1.screensaver_cookie = none ∧
    (disable env t s).1.dpms_fallback_active = false := by
  cases t <;> simp [disable, h, dsi_fst]

theorem disable_events_mem (env : DisengageEnv) (t : TermOutcome) (s : PepState) (p : Nat)
    (e : Event) (h : s.process = some p)
    (he : e ∈ (disable_screen_inhibit env s).2) : e ∈ (disable env t s).2.2 := by
  cases t <;> simp [disable, h, List.mem_append] <;> exact Or.inl he

theorem cleanup_not_active (alive : Bool) (denv : DisengageEnv) (t : TermOutcome)
    (s : PepState) (h : is_active alive s = false) :
    cleanup alive denv t s = disable_screen_inhibit denv s := by
  simp [cleanup, h]

theorem cleanup_active (alive : Bool) (denv : DisengageEnv) (t : TermOutcome)
    (s : PepState) (h : is_active alive s = true) :
    cleanup alive denv t s = ((disable denv t s).1, (disable denv t s).2.2) := by
  simp [cleanup, h]

/-! ### Invariant machinery for claim C2 -/

/-- Strengthened inductive invariant: the cookie and the fallback flag are
never simultaneously set, and with no stored handle the guard holds
neither cookie nor fallback flag. -/
def invStrong (s : PepState) : Prop :=
  (s.screensaver_cookie = none ∨ s.dpms_fallback_active = false) ∧
  (s.process = none → s.screensaver_cookie = none ∧ s.dpms_fallback_active = false)

theorem invStrong_step {s s1 : PepState} (hs : invStrong s) (st : Step s s1) :
    invStrong s1 := by
  obtain ⟨h1, h2⟩ := hs
  rcases st with ⟨sp, env, s⟩ | ⟨env, t, s⟩ | ⟨alive, denv, t, s⟩
  · rcases hp : s.process with _ | p
    · obtain ⟨hck, hfb⟩ := h2 hp
      rcases sp with pid | _ | _
      · rcases hd : env.dbus_inhibit with _ | c
        · constructor
          · left
            simp only [enable, hp]
            simpa [esi_fst_cookie_dbus_none env _ hd] using hck
          · intro hpn
            simp only [enable, hp] at hpn
            rw [esi_fst_process] at hpn
            simp at hpn
        · simp only [enable, hp]
          simp only [esi_dbus_some env _ c hd]
          exact ⟨Or.inr hfb, by intro h; simp at h⟩
      · simp only [enable, hp]; exact ⟨h1, h2⟩
      · simp only [enable, hp]; exact ⟨h1, h2⟩
    · simp only [enable, hp]; exact ⟨h1, h2⟩
  · rcases hp : s.process with _ | p
    · rw [disable_no_handle env t s hp]; exact ⟨h1, h2⟩
    · obtain ⟨hck, hfb⟩ := disable_fst_guard env t s p hp
      exact ⟨Or.inl hck, fun _ => ⟨hck, hfb⟩⟩
  · rcases ha : is_active alive s with _ | _
    · rw [cleanup_not_active alive denv t s ha, dsi_fst]
      exact ⟨Or.inl rfl, fun _ => ⟨rfl, rfl⟩⟩
    · have hp : ∃ p, s.process = some p := by
        rcases hq : s.process with _ | p
        · rw [is_active, hq] at ha; simp at ha
        · exact ⟨p, rfl⟩
      obtain ⟨p, hp⟩ := hp
      rw [cleanup_active alive denv t s ha]
      obtain ⟨hck, hfb⟩ := disable_fst_guard denv t s p hp
      exact ⟨Or.inl hck, fun _ => ⟨hck, hfb⟩⟩

theorem invStrong_reachable {s : PepState} (h : Reachable s) : invStrong s := by
  induction h with
  | init => exact ⟨Or.inl rfl, fun _ => ⟨rfl, rfl⟩⟩
  | step _ hst ih => exact invStrong_step ih hst

/-! ### Claims -/

/-- C1 counterexample: with a stored handle whose process has already
exited (`is_active` reports `false`), `disable()` does NOT return `false`:
it releases the screen guard (a side effect) and returns `true`. -/
theorem C1_counterexample :
    is_active false ⟨some 1, some 7, false, none⟩ = false ∧
    (disable ⟨true, true, true, true⟩ TermOutcome.graceful
      ⟨some 1, some 7, false, none⟩).2.1 = true ∧
    (disable ⟨true, true, true, true⟩ TermOutcome.graceful
      ⟨some 1, some 7, false, none⟩).2.2 =
      [Event.dbus_uninhibit 7, Event.terminate_proc] := by
  decide

/-- C1 (amended): `disable()` returns `false` with no side effects exactly
when no process handle is stored; the guard keeps all state unchanged and
attempts no external action. -/
theorem C1_disable_requires_handle (env : DisengageEnv) (t : TermOutcome) (s : PepState)
    (h : s.process = none) : disable env t s = (s, false, []) :=
  disable_no_handle env t s h

/-- C1 witness: the amended theorem at the initial state. -/
theorem C1_witness :
    disable ⟨true, true, true, true⟩ TermOutcome.graceful initState =
      (initState, false, []) :=
  C1_disable_requires_handle ⟨true, true, true, true⟩ TermOutcome.graceful initState rfl

/-- C2 counterexample: a reachable state in which the DPMS baseline is
present while the fallback flag is unset — reached by one `enable()` where
the spawn succeeds, D-Bus fails, `xset q` succeeds with parseable output,
and `xset s off -dpms` then fails.  The spec's three-variant invariant is
violated there. -/
theorem C2_counterexample :
    Reachable ⟨some 1, none, false, some (600, 600, 600, 0)⟩ ∧
    specScreenGuardInvariant ⟨some 1, none, false, some (600, 600, 600, 0)⟩ = false := by
  refine ⟨?_, by decide⟩
  have h1 : (enable (SpawnOutcome.ok 1)
      ⟨none, some ⟨0, "Standby: 600 Suspend: 600 Off: 600"⟩, false⟩ initState).1 =
      ⟨some 1, none, false, some (600, 600, 600, 0)⟩ := by decide
  exact h1 ▸ Reachable.step Reachable.init
    (Step.stepEnable (SpawnOutcome.ok 1)
      ⟨none, some ⟨0, "Standby: 600 Suspend: 600 Off: 600"⟩, false⟩ initState)

/-- C2 (amended): in every reachable state the D-Bus cookie and the
fallback flag are mutually exclusive — the guard is in at most one of the
`DBusEngaged` / `FallbackEngaged` variants — but the captured baseline may
survive outside the fallback-engaged variant (it is stored by the query
step before the fallback set command, and not cleared when that command
fails). -/
theorem C2_cookie_fallback_exclusive (s : PepState) (h : Reachable s) :
    s.screensaver_cookie = none ∨ s.dpms_fallback_active = false :=
  (invStrong_reachable h).1

/-- C2 witness: the amended invariant at the initial state. -/
theorem C2_witness :
    initState.screensaver_cookie = none ∨ initState.dpms_fallback_active = false :=
  C2_cookie_fallback_exclusive initState Reachable.init

/-- C3: whenever the spawn succeeds, `enable()` returns `true` for every
possible outcome of the screen-guard engagement. -/
theorem C3_enable_true_whenever_spawn_succeeds (s : PepState) (pid : Nat)
    (env : EngageEnv) (h : s.process = none) :
    (enable (SpawnOutcome.ok pid) env s).2.1 = true := by
  simp [enable, h]

/-- C3 witness: spawn succeeds while D-Bus fails, `xset q` raises and the
fallback is never engaged — `enable()` still returns `true`. -/
theorem C3_witness :
    (enable (SpawnOutcome.ok 1) ⟨none, none, false⟩ initState).2.1 = true :=
  C3_enable_true_whenever_spawn_succeeds initState 1 ⟨none, none, false⟩ rfl

/-- C4: when the spawn fails (missing executable or any other error),
`enable()` returns `false`, the state is unchanged, and no engage action
(D-Bus call or xset command) is attempted. -/
theorem C4_enable_spawn_failure (s : PepState) (env : EngageEnv) (h : s.process = none) :
    enable SpawnOutcome.fileNotFound env s = (s, false, [Event.spawn_systemd_inhibit]) ∧
    enable SpawnOutcome.otherError env s = (s, false, [Event.spawn_systemd_inhibit]) :=
  ⟨by simp [enable, h], by simp [enable, h]⟩

/-- C4 witness: missing `systemd-inhibit` at the initial state. -/
theorem C4_witness :
    enable SpawnOutcome.fileNotFound ⟨none, none, false⟩ initState =
      (initState, false, [Event.spawn_systemd_inhibit]) :=
  (C4_enable_spawn_failure initState ⟨none, none, false⟩ rfl).1

/-- C5: while the inhibitor is active, a second `enable()` returns `false`,
leaves the state unchanged, and attempts no external action. -/
theorem C5_enable_noop_when_active (s : PepState) (sp : SpawnOutcome) (env : EngageEnv)
    (alive : Bool) (h : is_active alive s = true) : enable sp env s = (s, false, []) := by
  rcases hp : s.process with _ | p
  · rw [is_active, hp] at h; simp at h
  · simp [enable, hp]

/-- C5 witness: an active state; even a spawn that would succeed is not
attempted and `enable()` returns `false`. -/
theorem C5_witness :
    enable (SpawnOutcome.ok 2) ⟨some 7, none, false⟩ ⟨some 1, none, false, none⟩ =
      (⟨some 1, none, false, none⟩, false, []) :=
  C5_enable_noop_when_active ⟨some 1, none, false, none⟩ (SpawnOutcome.ok 2)
    ⟨some 7, none, false⟩ true (by decide)

/-- C6: from a fallback-engaged state with captured baseline
`(a, b, c, t)`, disengaging (with the restore command executing) issues
exactly `xset dpms a b c` followed by `xset s t` — the captured values,
unchanged — and the guard ends disengaged with flag and baseline cleared. -/
theorem C6_disengage_restores_exact_baseline (env : DisengageEnv) (s : PepState)
    (a b c t : Nat) (hck : s.screensaver_cookie = none)
    (hfb : s.dpms_fallback_active = true) (hod : s.original_dpms = some (a, b, c, t))
    (hok : env.restore_dpms_ok = true) :
    disable_screen_inhibit env s =
      ({ s with dpms_fallback_active := false, original_dpms := none },
        [Event.xset_dpms a b c, Event.xset_s t]) ∧
    screenGuardEngaged (disable_screen_inhibit env s).1 = false := by
  obtain ⟨p, ck, fb, od⟩ := s
  simp only at hck hfb hod
  subst hck; subst hfb; subst hod
  simp [disable_screen_inhibit, hok, screenGuardEngaged]

/-- C6 witness: the spec's own example baseline `(600, 600, 600, 600)`. -/
theorem C6_witness :
    disable_screen_inhibit ⟨true, true, true, true⟩
      ⟨some 1, none, true, some (600, 600, 600, 600)⟩ =
      (⟨some 1, none, false, none⟩, [Event.xset_dpms 600 600 600, Event.xset_s 600]) :=
  (C6_disengage_restores_exact_baseline ⟨true, true, true, true⟩
    ⟨some 1, none, true, some (600, 600, 600, 600)⟩ 600 600 600 600 rfl rfl rfl rfl).1

/-- C7: `_parse_xset_dpms` returns `none` iff neither the
Standby/Suspend/Off pattern nor the timeout/cycle pattern matches; when at
least one matches, the matched fields carry the parsed integers and the
unmatched fields are 0 (values are in ℕ, hence non-negative). -/
theorem C7_parse_characterisation (o : String) :
    (parse_xset_dpms o = none ↔ (dpmsSearch o = none ∧ ssSearch o = none)) ∧
    (∀ a b c t, dpmsSearch o = some (a, b, c) → ssSearch o = some t →
      parse_xset_dpms o = some (a, b, c, t)) ∧
    (∀ a b c, dpmsSearch o = some (a, b, c) → ssSearch o = none →
      parse_xset_dpms o = some (a, b, c, 0)) ∧
    (∀ t, dpmsSearch o = none → ssSearch o = some t →
      parse_xset_dpms o = some (0, 0, 0, t)) := by
  rcases hd : dpmsSearch o with _ | ⟨a, b, c⟩ <;> rcases hs : ssSearch o with _ | t <;>
    simp [parse_xset_dpms, hd, hs] <;>
    exact fun a1 b1 c1 t1 h1 h2 h3 h4 => ⟨h1, h2, h3, h4⟩

/-- C7 witness: a concrete `xset q` output where both patterns match. -/
theorem C7_witness :
    parse_xset_dpms
      "  Standby: 600    Suspend: 500    Off: 400\n  timeout:  300    cycle:  600" =
      some (600, 500, 400, 300) :=
  (C7_parse_characterisation
      "  Standby: 600    Suspend: 500    Off: 400\n  timeout:  300    cycle:  600").2.1
    600 500 400 300 (by decide) (by decide)

/-- C8: when the D-Bus `Inhibit` call succeeds with cookie `c` (starting
from a state with fallback flag and baseline unset), the engage step stores
exactly the cookie, attempts no xset command, and leaves flag and baseline
unset: the resulting guard state is `DBusEngaged{c}`. -/
theorem C8_engage_dbus_success (env : EngageEnv) (s : PepState) (c : Nat)
    (hd : env.dbus_inhibit = some c) (hfb : s.dpms_fallback_active = false)
    (hod : s.original_dpms = none) :
    enable_screen_inhibit env s =
      ({ s with screensaver_cookie := some c }, [Event.dbus_inhibit]) ∧
    (enable_screen_inhibit env s).1 = ⟨s.process, some c, false, none⟩ := by
  obtain ⟨p, ck, fb, od⟩ := s
  simp only at hfb hod
  subst hfb; subst hod
  exact ⟨esi_dbus_some env _ c hd, by rw [esi_dbus_some env _ c hd]⟩

/-- C8 witness: the spec's Scenario A cookie 7. -/
theorem C8_witness :
    enable_screen_inhibit ⟨some 7, none, false⟩ ⟨some 1, none, false, none⟩ =
      (⟨some 1, some 7, false, none⟩, [Event.dbus_inhibit]) :=
  (C8_engage_dbus_success ⟨some 7, none, false⟩ ⟨some 1, none, false, none⟩ 7
    rfl rfl rfl).1

/-- C9: `cleanup()` always leaves the screen guard disengaged: it issues
the D-Bus release when a cookie is held and the baseline restore when the
fallback is engaged (also when the process already exited), and when the
process is still alive it is exactly the full `disable` sequence. -/
theorem C9_cleanup_releases_screen_guard (alive : Bool) (denv : DisengageEnv)
    (t : TermOutcome) (s : PepState) :
    screenGuardEngaged (cleanup alive denv t s).1 = false ∧
    (∀ c, s.screensaver_cookie = some c →
      Event.dbus_uninhibit c ∈ (cleanup alive denv t s).2) ∧
    (∀ a b c ss, s.dpms_fallback_active = true → s.original_dpms = some (a, b, c, ss) →
      Event.xset_dpms a b c ∈ (cleanup alive denv t s).2) ∧
    (is_active alive s = true →
      cleanup alive denv t s = ((disable denv t s).1, (disable denv t s).2.2)) := by
  rcases ha : is_active alive s with _ | _
  · rw [cleanup_not_active alive denv t s ha]
    refine ⟨?_, ?_, ?_, ?_⟩
    · rw [dsi_fst]; simp [screenGuardEngaged]
    · exact fun c hc => dsi_events_uninhibit denv s c hc
    · exact fun a b c ss hf ho => dsi_events_restore denv s a b c ss hf ho
    · intro h; simp at h
  · have hp : ∃ p, s.process = some p := by
      rcases hq : s.process with _ | p
      · rw [is_active, hq] at ha; simp at ha
      · exact ⟨p, rfl⟩
    obtain ⟨p, hp⟩ := hp
    rw [cleanup_active alive denv t s ha]
    refine ⟨?_, ?_, ?_, fun _ => rfl⟩
    · obtain ⟨hck, hfb⟩ := disable_fst_guard denv t s p hp
      simp [screenGuardEngaged, hck, hfb]
    · exact fun c hc =>
        disable_events_mem denv t s p _ hp (dsi_events_uninhibit denv s c hc)
    · exact fun a b c ss hf ho =>
        disable_events_mem denv t s p _ hp (dsi_events_restore denv s a b c ss hf ho)

/-- C9 witness: a dead handle with a held cookie — `cleanup()` still issues
the D-Bus release. -/
theorem C9_witness :
    Event.dbus_uninhibit 7 ∈
      (cleanup false ⟨true, true, true, true⟩ TermOutcome.graceful
        ⟨some 1, some 7, false, none⟩).2 :=
  (C9_cleanup_releases_screen_guard false ⟨true, true, true, true⟩ TermOutcome.graceful
    ⟨some 1, some 7, false, none⟩).2.1 7 rfl

/-- C10: `cleanup()` on a present-but-dead handle keeps the handle stored;
the instance then reports inactive, yet every `enable()` call on the
resulting state returns `false` and changes nothing — so it also keeps
returning `false` on all later calls. -/
theorem C10_cleanup_keeps_dead_handle (denv : DisengageEnv) (t : TermOutcome)
    (s : PepState) (p : Nat) (hp : s.process = some p) :
    (cleanup false denv t s).1.process = some p ∧
    is_active false (cleanup false denv t s).1 = false ∧
    ∀ sp env, enable sp env (cleanup false denv t s).1 =
      ((cleanup false denv t s).1, false, []) := by
  have ha : is_active false s = false := by simp [is_active]
  rw [cleanup_not_active false denv t s ha, dsi_fst]
  refine ⟨by simp [hp], by simp [is_active], ?_⟩
  intro sp env
  simp [enable, hp]

/-- C10 witness: after `cleanup()` on a dead handle, an `enable()` with a
spawn that would succeed still returns `false`. -/
theorem C10_witness :
    (cleanup false ⟨true, true, true, true⟩ TermOutcome.graceful
      ⟨some 1, none, false, none⟩).1.process = some 1 ∧
    enable (SpawnOutcome.ok 2) ⟨some 7, none, false⟩
      (cleanup false ⟨true, true, true, true⟩ TermOutcome.graceful
        ⟨some 1, none, false, none⟩).1 =
      ((cleanup false ⟨true, true, true, true⟩ TermOutcome.graceful
        ⟨some 1, none, false, none⟩).1, false, []) :=
  ⟨(C10_cleanup_keeps_dead_handle ⟨true, true, true, true⟩ TermOutcome.graceful
      ⟨some 1, none, false, none⟩ 1 rfl).1,
   (C10_cleanup_keeps_dead_handle ⟨true, true, true, true⟩ TermOutcome.graceful
      ⟨some 1, none, false, none⟩ 1 rfl).2.2 (SpawnOutcome.ok 2) ⟨some 7, none, false⟩⟩
